import Mathlib

/-!
# Verification of the holo-sounds backend core

Shallow embedding of the task-lifecycle / job-queue subsystem of the
holo-sounds audio service (`backend/models.py`, `backend/download_worker.py`,
`backend/process_handler.py`, `backend/cleanup.py`, `backend/main.py`),
together with theorems settling the specification claims about it.

Modelling conventions:
* Python `float` request parameters and POSIX timestamps are modelled as `ℚ`
  (exact arithmetic; the claims here are about comparisons and control flow,
  not rounding).
* The task registry (`TASKS`, a Python dict) is an association list
  `List (String × Task)`; Python dict item assignment updates the entry for
  an existing key in place.
* The filesystem is a list of existing paths (for the worker / process
  handler) or a list of top-level `/tmp` entries with an `isDir` flag and an
  mtime (for the cleanup sweep).
* External subprocesses (`yt-dlp`, `ffmpeg`) are opaque: their observable
  behaviour (exit code, stderr text, whether the expected output file was
  written, or raising an exception) is an explicit parameter of the
  functions that invoke them.
-/

namespace HoloSounds

/-- The `state` field of a task record: `Literal["queued", "downloading",
"ready", "error"]` in `models.py`. -/
inductive TaskState where
  | queued
  | downloading
  | ready
  | error
deriving DecidableEq, Repr

/-- The string value stored in the Python dict, used when the state is
interpolated into an HTTP error detail. -/
def TaskState.toStr : TaskState → String
  | .queued => "queued"
  | .downloading => "downloading"
  | .ready => "ready"
  | .error => "error"

/-- One entry of the `TASKS` registry, as created by `POST /api/download` in
`main.py`: `{"task_id": ..., "url": ..., "state": ..., "error_message": ...}`. -/
structure Task where
  task_id : String
  url : String
  state : TaskState
  error_message : Option String
deriving DecidableEq, Repr

/-- The `TASKS` registry: a dict from task id to task record, modelled as an
association list. -/
abbrev Tasks : Type := List (String × Task)

/-- `TASKS.get(task_id)`: first entry with the given key. -/
def Tasks.find : Tasks → String → Option Task
  | [], _ => none
  | (k, t) :: rest, id => if k = id then some t else Tasks.find rest id

/-- In-place mutation of the record stored under `id` (Python dict item
assignment on an existing key, e.g. `task["state"] = "downloading"`). Keys
other than `id` are untouched; an absent key stays absent. -/
def Tasks.modifyEntry : Tasks → String → (Task → Task) → Tasks
  | [], _, _ => []
  | (k, t) :: rest, id, f =>
      (k, if k = id then f t else t) :: Tasks.modifyEntry rest id f

/-- `TASKS[task_id] = record`: replace an existing entry, or append a new
one (Python dicts keep insertion order). -/
def Tasks.set (ts : Tasks) (id : String) (t : Task) : Tasks :=
  if (Tasks.find ts id).isSome then Tasks.modifyEntry ts id (fun _ => t)
  else ts ++ [(id, t)]

theorem Tasks.find_modifyEntry_self (ts : Tasks) (id : String) (f : Task → Task) :
    Tasks.find (Tasks.modifyEntry ts id f) id = (Tasks.find ts id).map f := by
  induction ts with
  | nil => rfl
  | cons p rest ih =>
    obtain ⟨k, t⟩ := p
    by_cases h : k = id <;> simp [Tasks.modifyEntry, Tasks.find, h, ih]

theorem Tasks.find_modifyEntry_other (ts : Tasks) (id id' : String) (f : Task → Task)
    (h : id ≠ id') : Tasks.find (Tasks.modifyEntry ts id f) id' = Tasks.find ts id' := by
  induction ts with
  | nil => rfl
  | cons p rest ih =>
    obtain ⟨k, t⟩ := p
    by_cases hp : k = id
    · have hp' : k ≠ id' := by simpa [hp] using h
      simp [Tasks.modifyEntry, Tasks.find, hp, hp', ih, h]
    · by_cases hq : k = id' <;>
        simp [Tasks.modifyEntry, Tasks.find, hp, hq, ih, Ne.symm h]

/-! ## Process handler (`process_handler.py`) and `GET /api/audio` (`main.py`) -/

/-- `ProcessRequest` from `models.py`. `end` is a Lean keyword, so the field
is called `end_`; `start`/`end_`/`fade_in`/`fade_out` are Python floats,
modelled as `ℚ`. -/
structure ProcessRequest where
  task_id : String
  start : ℚ
  end_ : ℚ
  fade_in : ℚ := 0
  fade_out : ℚ := 0
  denoise : Bool := false
deriving DecidableEq, Repr

/-- One element of the FFmpeg `-af` filter chain built by `process_audio`.
Each constructor records the parameters interpolated into the corresponding
filter string of the source. -/
inductive AFilter where
  /-- `atrim=start=..:end=..,asetpts=PTS-STARTPTS` (appended as one element). -/
  | trimReset (start stop : ℚ)
  /-- `afftdn=nr=20:nf=-25`. -/
  | afftdn
  /-- `afade=t=in:st=0:d=..`. -/
  | afadeIn (d : ℚ)
  /-- `afade=t=out:st=..:d=..`. -/
  | afadeOut (st d : ℚ)
deriving DecidableEq, Repr

/-- The filter-chain construction of `process_audio` (`process_handler.py`
lines 34-55), translated append by append:
`filters = [trim]`, then `if req.denoise`, then `if req.fade_in > 0`, then
`if req.fade_out > 0 and req.fade_out < duration` with
`fade_start = duration - req.fade_out`, where `duration = req.end - req.start`. -/
def buildFilters (req : ProcessRequest) : List AFilter :=
  let duration := req.end_ - req.start
  let f0 := [AFilter.trimReset req.start req.end_]
  let f1 := if req.denoise then f0 ++ [AFilter.afftdn] else f0
  let f2 := if req.fade_in > 0 then f1 ++ [AFilter.afadeIn req.fade_in] else f1
  let f3 := if req.fade_out > 0 ∧ req.fade_out < duration then
      f2 ++ [AFilter.afadeOut (duration - req.fade_out) req.fade_out] else f2
  f3

/-- An `HTTPException(status_code=..., detail=...)` surfaced to the caller. -/
structure HTTPError where
  status : Nat
  detail : String
deriving DecidableEq, Repr

/-- A `FileResponse(path=..., media_type=..., filename=...)`. -/
structure FileOut where
  path : String
  media_type : String
  filename : String
deriving DecidableEq, Repr

/-- The one `ffmpeg` invocation of `process_audio`: input path, `-af` chain,
output path (codec/quality flags are fixed constants in the source). -/
structure FFmpegInvocation where
  input : String
  filters : List AFilter
  output : String
deriving DecidableEq, Repr

/-- Observable behaviour of the `subprocess.run(ffmpeg_cmd, ..., check=True)`
call: it either completes (exit code zero or not, with stderr text and with
or without the output file written), or raises some other exception. -/
inductive FfmpegBehavior where
  /-- `exitZero`: whether the exit code was 0 (`check=True` turns a non-zero
  exit into `CalledProcessError` carrying `stderr`). `writesOutput`: whether
  the expected output file exists afterwards. -/
  | completes (exitZero : Bool) (stderr : String) (writesOutput : Bool)
  /-- `subprocess.run` raised something other than `CalledProcessError`
  (e.g. `OSError`); `msg` is `str(e)`. -/
  | raises (msg : String)
deriving DecidableEq, Repr

instance {α β : Type} [DecidableEq α] [DecidableEq β] : DecidableEq (Except α β) :=
  fun x y =>
    match x, y with
    | .error a, .error b =>
        if h : a = b then .isTrue (by rw [h]) else .isFalse (by simp [h])
    | .ok a, .ok b =>
        if h : a = b then .isTrue (by rw [h]) else .isFalse (by simp [h])
    | .error _, .ok _ => .isFalse (by simp)
    | .ok _, .error _ => .isFalse (by simp)

/-- Result of one `process_audio` call: the registry and filesystem
afterwards, the HTTP-level outcome, and the ffmpeg invocation if one was
attempted (`none` = the handler failed fast before any subprocess). -/
structure ProcResult where
  tasks : Tasks
  fs : List String
  response : Except HTTPError FileOut
  invoked : Option FFmpegInvocation
deriving DecidableEq, Repr

/-- `process_audio` (`process_handler.py`), with the filesystem `fs` as the
list of existing paths, `output_id` the fresh `uuid4` used for the output
name, and `beh` the ffmpeg subprocess's behaviour.

Note on the missing-output branch: `raise HTTPException(500, "Failed to
generate output file")` sits inside the `try` block, so it is caught by the
generic `except Exception` clause and re-raised as
`HTTPException(500, f"Unexpected error: \x7bstr(e)\x7d")`, where `str` of a
Starlette `HTTPException` is `f"\x7bstatus_code\x7d: \x7bdetail\x7d"`. -/
def processAudio (tasks : Tasks) (fs : List String) (req : ProcessRequest)
    (output_id : String) (beh : FfmpegBehavior) : ProcResult :=
  match Tasks.find tasks req.task_id with
  | none => ⟨tasks, fs, .error ⟨404, "Task not found"⟩, none⟩
  | some task =>
    if task.state ≠ TaskState.ready then
      ⟨tasks, fs,
        .error ⟨400, "Task is not ready. Current state: " ++ task.state.toStr⟩, none⟩
    else
      let src := "/tmp/" ++ req.task_id ++ "/audio.m4a"
      if src ∈ fs then
        let out := "/tmp/" ++ req.task_id ++ "/" ++ output_id ++ ".ogg"
        let inv : FFmpegInvocation := ⟨src, buildFilters req, out⟩
        match beh with
        | .completes true _ true =>
            ⟨tasks, fs ++ [out],
              .ok ⟨out, "audio/ogg", "clip_" ++ output_id ++ ".ogg"⟩, some inv⟩
        | .completes true _ false =>
            ⟨tasks, fs,
              .error ⟨500, "Unexpected error: 500: Failed to generate output file"⟩,
              some inv⟩
        | .completes false stderr _ =>
            ⟨tasks, fs, .error ⟨500, "Audio processing failed: " ++ stderr⟩, some inv⟩
        | .raises msg =>
            ⟨tasks, fs, .error ⟨500, "Unexpected error: " ++ msg⟩, some inv⟩
      else
        ⟨tasks, fs, .error ⟨404, "Source audio file not found"⟩, none⟩

/-- `GET /api/audio/\x7btask_id\x7d` (`get_audio_file` in `main.py`). The
handler never consults the filesystem: `fs` is a parameter only so that
theorems can quantify over worlds where the artifact is gone. -/
def getAudioFile (tasks : Tasks) (fs : List String) (task_id : String) :
    Except HTTPError FileOut :=
  match Tasks.find tasks task_id with
  | none => .error ⟨404, "Task not found"⟩
  | some task =>
    if task.state ≠ TaskState.ready then
      .error ⟨400, "Task is not ready. Current state: " ++ task.state.toStr⟩
    else
      .ok ⟨"/tmp/" ++ task_id ++ "/audio.m4a", "audio/mp4",
        "audio_" ++ task_id ++ ".m4a"⟩

/-! ## Download worker (`download_worker.py`) and task creation (`main.py`) -/

/-- State shared by the worker loop across iterations: the `TASKS` registry,
the `QUEUE` contents, the filesystem paths that exist, the queue's
unfinished-item counter (`puts - task_dones`, maintained by
`QUEUE.task_done()` in the worker's `finally` clause), and `prev`, the value
the Python local variable `task_id` holds from the previous iteration
(`none` before the first assignment — the local is then unbound). -/
structure WorkerState where
  tasks : Tasks
  queue : List String
  fs : List String
  unfinished : Nat
  prev : Option String
deriving DecidableEq, Repr

/-- What happens during one iteration of the worker's `try` block, beyond
what the state determines: either `await QUEUE.get()` itself raises an
exception with text `e`; or the orchestration after the task lookup raises
(`tmp_dir.mkdir`, `create_subprocess_exec`, `communicate` — e.g. `yt-dlp`
missing or a directory-creation failure), with text `e = str(exception)`;
or the `yt-dlp` subprocess runs to completion with exit code `returncode`,
decoded stderr text `stderr` (`""` for an empty stream), and `artifact`
telling whether `audio.m4a` was actually produced. -/
inductive WorkerEvent where
  | dequeueRaises (e : String)
  | orchRaises (e : String)
  | subprocDone (returncode : Int) (stderr : String) (artifact : Bool)
deriving DecidableEq, Repr

/-- Whether the `while True` loop proceeds to its next iteration, or an
exception escaped the `try/except/finally` and the worker coroutine died. -/
inductive IterOutcome where
  | continues
  | terminated
deriving DecidableEq, Repr

/-- `mkdir(exist_ok=True)` / file creation: add a path if absent. -/
def addPath (fs : List String) (p : String) : List String :=
  if p ∈ fs then fs else fs ++ [p]

/-- The `finally: QUEUE.task_done()` clause. With no unfinished item it
raises `ValueError` (which escapes, killing the loop); otherwise it
decrements the counter and the iteration ends normally. -/
def finishTaskDone (s : WorkerState) : WorkerState × IterOutcome :=
  if s.unfinished = 0 then (s, .terminated)
  else ({ s with unfinished := s.unfinished - 1 }, .continues)

/-- The body of the worker's `except Exception` clause,
`if task_id and task_id in TASKS: TASKS[task_id]["state"] = "error"; ...`,
given the value of the local `task_id` (which, when the dequeue itself
raised, is still the previous iteration's id). -/
def exceptHandler (tasks : Tasks) (task_id : String) (e : String) : Tasks :=
  if task_id ≠ "" ∧ (Tasks.find tasks task_id).isSome then
    Tasks.modifyEntry tasks task_id
      (fun t => { t with state := TaskState.error, error_message := some e })
  else tasks

/-- One iteration of `download_worker`'s `while True` loop.

* `dequeueRaises`: no item is consumed. If `task_id` was never assigned
  (`prev = none`, first iteration), the handler's `if task_id` test itself
  raises `UnboundLocalError`, which nothing catches; the `finally` still
  runs `task_done()` and the exception (or the `ValueError` replacing it)
  escapes: the coroutine terminates. If `prev = some pid`, the handler runs
  against the stale `pid` and marks that task `error`.
* Otherwise the head of the queue is consumed. A missing registry entry
  logs and `continue`s. Otherwise the state is set to `downloading`, the
  artifact directory is created, and the outcome of the subprocess (or an
  orchestration exception) decides the terminal write exactly as in
  `download_worker.py` lines 49-61. -/
def workerIteration (s : WorkerState) (ev : WorkerEvent) : WorkerState × IterOutcome :=
  match ev with
  | .dequeueRaises e =>
    match s.prev with
    | none => ({ s with unfinished := s.unfinished - 1 }, .terminated)
    | some pid => finishTaskDone { s with tasks := exceptHandler s.tasks pid e }
  | _ =>
    match s.queue with
    | [] => (s, .continues)
    | id :: rest =>
      let s1 := { s with queue := rest, prev := some id }
      match Tasks.find s1.tasks id with
      | none => finishTaskDone s1
      | some _ =>
        let s2 := { s1 with
          tasks := Tasks.modifyEntry s1.tasks id
            (fun t => { t with state := TaskState.downloading }) }
        match ev with
        | .orchRaises e => finishTaskDone { s2 with tasks := exceptHandler s2.tasks id e }
        | .subprocDone rc stderr artifact =>
          let s3 := { s2 with fs := addPath s2.fs ("/tmp/" ++ id) }
          let s4 := if artifact then
              { s3 with fs := addPath s3.fs ("/tmp/" ++ id ++ "/audio.m4a") }
            else s3
          if rc = 0 then
            finishTaskDone { s4 with
              tasks := Tasks.modifyEntry s4.tasks id
                (fun t => { t with state := TaskState.ready }) }
          else
            finishTaskDone { s4 with
              tasks := Tasks.modifyEntry s4.tasks id
                (fun t =>
                  { t with
                    state := TaskState.error
                    error_message :=
                      some (if stderr = "" then "Download failed" else stderr) }) }
        | .dequeueRaises _ => (s, .continues)

/-- `POST /api/download` (`download_audio` in `main.py`): create the record
with state `queued` and null `error_message`, then `QUEUE.put(task_id)`
(which also increments the queue's unfinished-item counter). -/
def downloadAudio (s : WorkerState) (task_id url : String) : WorkerState :=
  { s with
    tasks := Tasks.set s.tasks task_id ⟨task_id, url, TaskState.queued, none⟩,
    queue := s.queue ++ [task_id],
    unfinished := s.unfinished + 1 }

/-! ## Cleanup sweep (`cleanup.py`) -/

/-- One top-level entry of the scratch root `/tmp`, as seen by
`tmp_base.glob("*")`: its name, whether it is a directory, and its
modification time (`st_mtime`, a POSIX timestamp modelled as `ℚ`). -/
structure DirEntry where
  name : String
  isDir : Bool
  mtime : ℚ
deriving DecidableEq, Repr

/-- The task-id format check of `cleanup_old_files`:
`len(task_id) != 36 or task_id.count('-') != 4` skips the entry. -/
def looksLikeTaskId (s : String) : Bool :=
  s.length = 36 && (s.toList.filter (fun c => c = '-')).length = 4

/-- Whether the age-based pass deletes this entry: it is a directory, its
name looks like a task id, and `current_time - st_mtime > 3600`. -/
def agedTaskDir (now : ℚ) (d : DirEntry) : Bool :=
  d.isDir && looksLikeTaskId d.name && decide (now - d.mtime > 3600)

/-- Effect of the age-based pass on `/tmp`: aged task directories are
removed (`shutil.rmtree`), everything else is untouched. -/
def sweepDirs (now : ℚ) (fs : List DirEntry) : List DirEntry :=
  fs.filter (fun d => !agedTaskDir now d)

/-- The names of the directories the age-based pass deletes. -/
def agedIds (now : ℚ) (fs : List DirEntry) : List String :=
  (fs.filter (agedTaskDir now)).map DirEntry.name

/-- Effect of the age-based pass on the registry: for each deleted
directory, `if task_id in TASKS_REF: del TASKS_REF[task_id]`. -/
def sweepTasksAged (now : ℚ) (fs : List DirEntry) (tasks : Tasks) : Tasks :=
  tasks.filter (fun p => decide (p.1 ∉ agedIds now fs))

/-- `task_dir.exists()`: some `/tmp` entry (of any kind) has this name. -/
def dirOnDisk (fs : List DirEntry) (id : String) : Bool :=
  fs.any (fun d => d.name == id)

/-- `task_data.get("state") in ["ready", "error"]`. -/
def isTerminal (st : TaskState) : Bool :=
  st == TaskState.ready || st == TaskState.error

/-- The reconciliation pass of `cleanup_old_files`: drop every terminal
entry whose directory no longer exists (checked against the filesystem
after the age-based deletions). -/
def reconcileTasks (fsAfter : List DirEntry) (tasks : Tasks) : Tasks :=
  tasks.filter (fun p => !(isTerminal p.2.state && !dirOnDisk fsAfter p.1))

/-- One full pass of `cleanup_old_files` (`cleanup.py` lines 31-78): the
age-based directory sweep with its registry deletions, then the
reconciliation pass over the remaining registry entries. The loops mutate
disjoint entries independently, so each pass is a filter. -/
def cleanupOldFiles (now : ℚ) (fs : List DirEntry) (tasks : Tasks) :
    List DirEntry × Tasks :=
  let fsAfter := sweepDirs now fs
  let tasksA := sweepTasksAged now fs tasks
  (fsAfter, reconcileTasks fsAfter tasksA)

/-! ## HTTP route table (`main.py`) -/

/-- HTTP method of a route decorator. -/
inductive Method where
  | get
  | post
deriving DecidableEq, Repr

/-- One `@app.<method>(path)` route. -/
structure Route where
  method : Method
  path : String
deriving DecidableEq, Repr

/-- The complete route table of the FastAPI app in `main.py`, in declaration
order (path parameters verbatim). Besides these routes the app only mounts
the static directory `/assets`. -/
def apiRoutes : List Route :=
  [ ⟨Method.post, "/api/download"⟩,
    ⟨Method.get, "/api/status/\x7btask_id\x7d"⟩,
    ⟨Method.post, "/api/process"⟩,
    ⟨Method.get, "/api/audio/\x7btask_id\x7d"⟩,
    ⟨Method.get, "/\x7bfull_path:path\x7d"⟩ ]

/-! ## Helper lemmas -/

theorem processAudio_notFound (tasks : Tasks) (fs : List String) (req : ProcessRequest)
    (oid : String) (beh : FfmpegBehavior) (hf : Tasks.find tasks req.task_id = none) :
    processAudio tasks fs req oid beh = ⟨tasks, fs, .error ⟨404, "Task not found"⟩, none⟩ := by
  unfold processAudio
  rw [hf]

theorem processAudio_notReady (tasks : Tasks) (fs : List String) (req : ProcessRequest)
    (oid : String) (beh : FfmpegBehavior) (t : Task)
    (hf : Tasks.find tasks req.task_id = some t) (hs : t.state ≠ TaskState.ready) :
    processAudio tasks fs req oid beh
      = ⟨tasks, fs,
          .error ⟨400, "Task is not ready. Current state: " ++ t.state.toStr⟩, none⟩ := by
  unfold processAudio
  rw [hf]
  simp [hs]

theorem processAudio_srcMissing (tasks : Tasks) (fs : List String) (req : ProcessRequest)
    (oid : String) (beh : FfmpegBehavior) (t : Task)
    (hf : Tasks.find tasks req.task_id = some t) (hs : t.state = TaskState.ready)
    (hm : "/tmp/" ++ req.task_id ++ "/audio.m4a" ∉ fs) :
    processAudio tasks fs req oid beh
      = ⟨tasks, fs, .error ⟨404, "Source audio file not found"⟩, none⟩ := by
  unfold processAudio
  rw [hf]
  simp [hs, hm]

theorem processAudio_invoked (tasks : Tasks) (fs : List String) (req : ProcessRequest)
    (oid : String) (beh : FfmpegBehavior) (t : Task)
    (hf : Tasks.find tasks req.task_id = some t) (hs : t.state = TaskState.ready)
    (hm : "/tmp/" ++ req.task_id ++ "/audio.m4a" ∈ fs) :
    (processAudio tasks fs req oid beh).invoked
      = some ⟨"/tmp/" ++ req.task_id ++ "/audio.m4a", buildFilters req,
          "/tmp/" ++ req.task_id ++ "/" ++ oid ++ ".ogg"⟩ := by
  unfold processAudio
  rw [hf]
  rcases beh with ⟨ez, stderr, wo⟩ | m
  · cases ez <;> cases wo <;> simp [hs, hm]
  · simp [hs, hm]

theorem processAudio_tasks_eq (tasks : Tasks) (fs : List String) (req : ProcessRequest)
    (oid : String) (beh : FfmpegBehavior) :
    (processAudio tasks fs req oid beh).tasks = tasks := by
  unfold processAudio
  rcases Tasks.find tasks req.task_id with _ | task
  · rfl
  · dsimp only
    rcases beh with ⟨ez, stderr, wo⟩ | m
    · cases ez <;> cases wo <;> split_ifs <;> rfl
    · split_ifs <;> rfl

theorem processAudio_invoked_filters (tasks : Tasks) (fs : List String)
    (req : ProcessRequest) (oid : String) (beh : FfmpegBehavior) (inv : FFmpegInvocation)
    (h : (processAudio tasks fs req oid beh).invoked = some inv) :
    inv.filters = buildFilters req := by
  unfold processAudio at h
  rcases hf : Tasks.find tasks req.task_id with _ | task <;> rw [hf] at h
  · simp at h
  · dsimp only at h
    rcases beh with ⟨ez, stderr, wo⟩ | m
    · cases ez <;> cases wo <;> split_ifs at h <;> simp_all <;> simp [← h]
    · split_ifs at h <;> simp_all <;> simp [← h]

theorem buildFilters_concat (req : ProcessRequest) :
    buildFilters req
      = [AFilter.trimReset req.start req.end_]
        ++ (if req.denoise then [AFilter.afftdn] else [])
        ++ (if req.fade_in > 0 then [AFilter.afadeIn req.fade_in] else [])
        ++ (if req.fade_out > 0 ∧ req.fade_out < req.end_ - req.start then
              [AFilter.afadeOut (req.end_ - req.start - req.fade_out) req.fade_out]
            else []) := by
  unfold buildFilters
  dsimp only
  split_ifs <;> simp

theorem buildFilters_no_fadeOut (req : ProcessRequest)
    (h : req.end_ - req.start ≤ req.fade_out) :
    ∀ st d, AFilter.afadeOut st d ∉ buildFilters req := by
  intro st d
  rw [buildFilters_concat]
  have hlt : ¬ req.fade_out < req.end_ - req.start := not_lt.mpr h
  simp [hlt]

theorem buildFilters_head (req : ProcessRequest) :
    (buildFilters req).head? = some (AFilter.trimReset req.start req.end_) := by
  rw [buildFilters_concat]
  rfl

theorem finishTaskDone_tasks (s : WorkerState) : (finishTaskDone s).1.tasks = s.tasks := by
  unfold finishTaskDone
  split_ifs <;> rfl

theorem finishTaskDone_fs (s : WorkerState) : (finishTaskDone s).1.fs = s.fs := by
  unfold finishTaskDone
  split_ifs <;> rfl

theorem worker_subproc_find (tks : Tasks) (rest fsS : List String) (unf : Nat)
    (prev : Option String) (id : String) (t : Task) (hf : Tasks.find tks id = some t)
    (rc : Int) (stderr : String) (art : Bool) :
    Tasks.find (workerIteration ⟨tks, id :: rest, fsS, unf, prev⟩
        (WorkerEvent.subprocDone rc stderr art)).1.tasks id
      = some (if rc = 0 then { t with state := TaskState.ready }
          else { t with
            state := TaskState.error
            error_message := some (if stderr = "" then "Download failed" else stderr) }) := by
  unfold workerIteration
  dsimp only
  rw [hf]
  dsimp only
  by_cases hrc : rc = 0 <;>
    cases art <;>
    simp [hrc, finishTaskDone_tasks, Tasks.find_modifyEntry_self, hf]

theorem worker_orch_find (tks : Tasks) (rest fsS : List String) (unf : Nat)
    (prev : Option String) (id : String) (t : Task) (hf : Tasks.find tks id = some t)
    (hid : id ≠ "") (e : String) :
    Tasks.find (workerIteration ⟨tks, id :: rest, fsS, unf, prev⟩
        (WorkerEvent.orchRaises e)).1.tasks id
      = some { t with state := TaskState.error, error_message := some e } := by
  unfold workerIteration
  dsimp only
  rw [hf]
  dsimp only
  have hsome : (Tasks.find (Tasks.modifyEntry tks id
      (fun u => { u with state := TaskState.downloading })) id).isSome := by
    rw [Tasks.find_modifyEntry_self, hf]
    rfl
  simp [exceptHandler, hid, hsome, finishTaskDone_tasks, Tasks.find_modifyEntry_self, hf]

theorem mem_sweepDirs {now : ℚ} {fs : List DirEntry} {d : DirEntry} :
    d ∈ sweepDirs now fs ↔ d ∈ fs ∧ agedTaskDir now d = false := by
  simp [sweepDirs, List.mem_filter]

theorem mem_agedIds {now : ℚ} {fs : List DirEntry} {id : String} :
    id ∈ agedIds now fs ↔ ∃ d, (d ∈ fs ∧ agedTaskDir now d = true) ∧ d.name = id := by
  simp [agedIds, List.mem_map, List.mem_filter]

theorem mem_sweepTasksAged {now : ℚ} {fs : List DirEntry} {tasks : Tasks}
    {p : String × Task} :
    p ∈ sweepTasksAged now fs tasks ↔ p ∈ tasks ∧ p.1 ∉ agedIds now fs := by
  simp [sweepTasksAged, List.mem_filter]

theorem mem_reconcileTasks {fsA : List DirEntry} {tasks : Tasks} {p : String × Task} :
    p ∈ reconcileTasks fsA tasks
      ↔ p ∈ tasks ∧ (isTerminal p.2.state = false ∨ dirOnDisk fsA p.1 = true) := by
  simp [reconcileTasks, List.mem_filter, Bool.not_eq_true']

/-! ## Claim theorems -/

/-- C4: for every process request, the `-af` chain passed to the transcode
subprocess is composed in exactly the fixed order (1) trim to
`[start, end)` with timeline reset, (2) denoise iff `denoise`, (3) fade-in
iff `fade_in > 0`, (4) fade-out iff `0 < fade_out < end - start` with
start offset `(end - start) - fade_out`; fade-out is silently omitted
whenever `fade_out >= end - start`. -/
theorem c4_filter_chain (tasks : Tasks) (fs : List String) (req : ProcessRequest)
    (oid : String) (beh : FfmpegBehavior) (inv : FFmpegInvocation)
    (h : (processAudio tasks fs req oid beh).invoked = some inv) :
    (inv.filters
      = [AFilter.trimReset req.start req.end_]
        ++ (if req.denoise then [AFilter.afftdn] else [])
        ++ (if req.fade_in > 0 then [AFilter.afadeIn req.fade_in] else [])
        ++ (if req.fade_out > 0 ∧ req.fade_out < req.end_ - req.start then
              [AFilter.afadeOut (req.end_ - req.start - req.fade_out) req.fade_out]
            else []))
    ∧ (req.end_ - req.start ≤ req.fade_out →
        ∀ st d, AFilter.afadeOut st d ∉ inv.filters) := by
  have hfil := processAudio_invoked_filters tasks fs req oid beh inv h
  refine ⟨hfil.trans (buildFilters_concat req), fun hle st d => ?_⟩
  rw [hfil]
  exact buildFilters_no_fadeOut req hle st d

/-- Witness for C4 at a concrete request (`start=0`, `end=10`, `fade_in=1`,
`fade_out=2`, `denoise=true`) against a ready task with its artifact on
disk. -/
theorem c4_filter_chain_witness :
    (processAudio [("A", ⟨"A", "http://u", TaskState.ready, none⟩)]
        ["/tmp/A/audio.m4a"] ⟨"A", 0, 10, 1, 2, true⟩ "o"
        (FfmpegBehavior.completes true "" true)).invoked
      = some ⟨"/tmp/A/audio.m4a", buildFilters ⟨"A", 0, 10, 1, 2, true⟩, "/tmp/A/o.ogg"⟩
    ∧ buildFilters ⟨"A", 0, 10, 1, 2, true⟩
      = [AFilter.trimReset 0 10, AFilter.afftdn, AFilter.afadeIn 1,
          AFilter.afadeOut 8 2] := by
  have hinv : (processAudio [("A", ⟨"A", "http://u", TaskState.ready, none⟩)]
      ["/tmp/A/audio.m4a"] ⟨"A", 0, 10, 1, 2, true⟩ "o"
      (FfmpegBehavior.completes true "" true)).invoked
      = some ⟨"/tmp/A/audio.m4a", buildFilters ⟨"A", 0, 10, 1, 2, true⟩,
          "/tmp/A/o.ogg"⟩ :=
    processAudio_invoked [("A", ⟨"A", "http://u", TaskState.ready, none⟩)]
      ["/tmp/A/audio.m4a"] ⟨"A", 0, 10, 1, 2, true⟩ "o"
      (FfmpegBehavior.completes true "" true)
      ⟨"A", "http://u", TaskState.ready, none⟩ rfl rfl (by decide)
  refine ⟨hinv, ((c4_filter_chain _ _ _ _ _ _ hinv).1).trans ?_⟩
  norm_num

/-- C5: `process_audio` fails fast without invoking any subprocess: 404 for
an unknown task id, 400 for a task not in state `ready`, 404 for a missing
primary artifact file; the transcode subprocess is invoked exactly when all
three preconditions hold. -/
theorem c5_fail_fast (tasks : Tasks) (fs : List String) (req : ProcessRequest)
    (oid : String) (beh : FfmpegBehavior) :
    (Tasks.find tasks req.task_id = none →
      processAudio tasks fs req oid beh
        = ⟨tasks, fs, .error ⟨404, "Task not found"⟩, none⟩)
    ∧ (∀ t, Tasks.find tasks req.task_id = some t → t.state ≠ TaskState.ready →
        processAudio tasks fs req oid beh
          = ⟨tasks, fs,
              .error ⟨400, "Task is not ready. Current state: " ++ t.state.toStr⟩,
              none⟩)
    ∧ (∀ t, Tasks.find tasks req.task_id = some t → t.state = TaskState.ready →
        "/tmp/" ++ req.task_id ++ "/audio.m4a" ∉ fs →
        processAudio tasks fs req oid beh
          = ⟨tasks, fs, .error ⟨404, "Source audio file not found"⟩, none⟩)
    ∧ (∀ t, Tasks.find tasks req.task_id = some t → t.state = TaskState.ready →
        "/tmp/" ++ req.task_id ++ "/audio.m4a" ∈ fs →
        (processAudio tasks fs req oid beh).invoked
          = some ⟨"/tmp/" ++ req.task_id ++ "/audio.m4a", buildFilters req,
              "/tmp/" ++ req.task_id ++ "/" ++ oid ++ ".ogg"⟩) :=
  ⟨fun hf => processAudio_notFound tasks fs req oid beh hf,
   fun t hf hs => processAudio_notReady tasks fs req oid beh t hf hs,
   fun t hf hs hm => processAudio_srcMissing tasks fs req oid beh t hf hs hm,
   fun t hf hs hm => processAudio_invoked tasks fs req oid beh t hf hs hm⟩

/-- Witness for C5: all four branches at concrete inputs (empty registry; a
`queued` task; a `ready` task without its file; a `ready` task with it). -/
theorem c5_fail_fast_witness :
    (processAudio [] [] ⟨"A", 0, 1, 0, 0, false⟩ "o" (FfmpegBehavior.raises "x")
      = ⟨[], [], .error ⟨404, "Task not found"⟩, none⟩)
    ∧ (processAudio [("A", ⟨"A", "http://u", TaskState.queued, none⟩)] []
        ⟨"A", 0, 1, 0, 0, false⟩ "o" (FfmpegBehavior.raises "x")
      = ⟨[("A", ⟨"A", "http://u", TaskState.queued, none⟩)], [],
          .error ⟨400, "Task is not ready. Current state: queued"⟩, none⟩)
    ∧ (processAudio [("A", ⟨"A", "http://u", TaskState.ready, none⟩)] []
        ⟨"A", 0, 1, 0, 0, false⟩ "o" (FfmpegBehavior.raises "x")
      = ⟨[("A", ⟨"A", "http://u", TaskState.ready, none⟩)], [],
          .error ⟨404, "Source audio file not found"⟩, none⟩)
    ∧ ((processAudio [("A", ⟨"A", "http://u", TaskState.ready, none⟩)]
          ["/tmp/A/audio.m4a"] ⟨"A", 0, 1, 0, 0, false⟩ "o"
          (FfmpegBehavior.raises "x")).invoked
      = some ⟨"/tmp/A/audio.m4a", buildFilters ⟨"A", 0, 1, 0, 0, false⟩,
          "/tmp/A/o.ogg"⟩) := by
  refine ⟨?_, ?_, ?_, ?_⟩
  · exact (c5_fail_fast [] [] ⟨"A", 0, 1, 0, 0, false⟩ "o"
      (FfmpegBehavior.raises "x")).1 rfl
  · have h := (c5_fail_fast [("A", ⟨"A", "http://u", TaskState.queued, none⟩)] []
      ⟨"A", 0, 1, 0, 0, false⟩ "o" (FfmpegBehavior.raises "x")).2.1
      ⟨"A", "http://u", TaskState.queued, none⟩ rfl (by decide)
    simpa using h
  · have h := (c5_fail_fast [("A", ⟨"A", "http://u", TaskState.ready, none⟩)] []
      ⟨"A", 0, 1, 0, 0, false⟩ "o" (FfmpegBehavior.raises "x")).2.2.1
      ⟨"A", "http://u", TaskState.ready, none⟩ rfl rfl (by decide)
    simpa using h
  · have h := (c5_fail_fast [("A", ⟨"A", "http://u", TaskState.ready, none⟩)]
      ["/tmp/A/audio.m4a"] ⟨"A", 0, 1, 0, 0, false⟩ "o"
      (FfmpegBehavior.raises "x")).2.2.2
      ⟨"A", "http://u", TaskState.ready, none⟩ rfl rfl (by decide)
    simpa using h

/-- C6: `process_audio` never mutates the task registry: on every outcome
the registry, and in particular the requested task's record (its `state`,
`error_message`, `url` and `task_id` fields), is identical before and
after the call. -/
theorem c6_registry_unchanged (tasks : Tasks) (fs : List String)
    (req : ProcessRequest) (oid : String) (beh : FfmpegBehavior) :
    (processAudio tasks fs req oid beh).tasks = tasks
    ∧ Tasks.find (processAudio tasks fs req oid beh).tasks req.task_id
      = Tasks.find tasks req.task_id := by
  have h := processAudio_tasks_eq tasks fs req oid beh
  exact ⟨h, by rw [h]⟩

/-- C9 (implicit): `GET /api/audio/\x7btask_id\x7d` never checks that the
artifact file exists: for a `ready` task whose file is gone it still
returns the `FileResponse` at the missing path, while `process_audio` on
the same world returns 404. -/
theorem c9_audio_no_existence_check (tasks : Tasks) (fs : List String) (id : String)
    (t : Task) (hf : Tasks.find tasks id = some t) (hr : t.state = TaskState.ready)
    (hm : "/tmp/" ++ id ++ "/audio.m4a" ∉ fs) :
    getAudioFile tasks fs id
      = .ok ⟨"/tmp/" ++ id ++ "/audio.m4a", "audio/mp4", "audio_" ++ id ++ ".m4a"⟩
    ∧ ∀ req oid beh, req.task_id = id →
        processAudio tasks fs req oid beh
          = ⟨tasks, fs, .error ⟨404, "Source audio file not found"⟩, none⟩ := by
  constructor
  · unfold getAudioFile
    rw [hf]
    simp [hr]
  · intro req oid beh hid
    subst hid
    exact processAudio_srcMissing tasks fs req oid beh t hf hr hm

/-- Witness for C9: a ready task `A` whose directory was already swept
(empty filesystem). -/
theorem c9_audio_no_existence_check_witness :
    getAudioFile [("A", ⟨"A", "http://u", TaskState.ready, none⟩)] [] "A"
      = .ok ⟨"/tmp/A/audio.m4a", "audio/mp4", "audio_A.m4a"⟩
    ∧ processAudio [("A", ⟨"A", "http://u", TaskState.ready, none⟩)] []
        ⟨"A", 0, 1, 0, 0, false⟩ "o" (FfmpegBehavior.raises "x")
      = ⟨[("A", ⟨"A", "http://u", TaskState.ready, none⟩)], [],
          .error ⟨404, "Source audio file not found"⟩, none⟩ := by
  have h := c9_audio_no_existence_check
    [("A", ⟨"A", "http://u", TaskState.ready, none⟩)] [] "A"
    ⟨"A", "http://u", TaskState.ready, none⟩ rfl rfl (by decide)
  exact ⟨by simpa using h.1,
    by simpa using h.2 ⟨"A", 0, 1, 0, 0, false⟩ "o" (FfmpegBehavior.raises "x") rfl⟩

/-- C10 (implicit): `process_audio` performs no validation of the trim
window: against a ready task with an existing artifact, any `start`/`end`
(including `end <= start` or negative offsets) is passed raw to the trim
filter and the subprocess is invoked; when `end <= start` the fade-out
filter is always omitted because `fade_out > 0 ∧ fade_out < end - start`
cannot hold. -/
theorem c10_no_trim_validation (tasks : Tasks) (fs : List String)
    (req : ProcessRequest) (oid : String) (beh : FfmpegBehavior) (t : Task)
    (hf : Tasks.find tasks req.task_id = some t) (hr : t.state = TaskState.ready)
    (hm : "/tmp/" ++ req.task_id ++ "/audio.m4a" ∈ fs) :
    (processAudio tasks fs req oid beh).invoked
      = some ⟨"/tmp/" ++ req.task_id ++ "/audio.m4a", buildFilters req,
          "/tmp/" ++ req.task_id ++ "/" ++ oid ++ ".ogg"⟩
    ∧ (buildFilters req).head? = some (AFilter.trimReset req.start req.end_)
    ∧ (req.end_ ≤ req.start → ∀ st d, AFilter.afadeOut st d ∉ buildFilters req) := by
  refine ⟨processAudio_invoked tasks fs req oid beh t hf hr hm,
    buildFilters_head req, fun hle st d => ?_⟩
  rw [buildFilters_concat]
  have hcond : ¬(req.fade_out > 0 ∧ req.fade_out < req.end_ - req.start) := by
    rintro ⟨h1, h2⟩
    have : (0 : ℚ) < req.end_ - req.start := lt_trans h1 h2
    linarith
  simp [hcond]

/-- Witness for C10: a degenerate request with `start=5 > end=2` and
`fade_out=3` against a ready task whose artifact exists: the subprocess is
still invoked, the raw window reaches the trim filter, and no fade-out
filter appears. -/
theorem c10_no_trim_validation_witness :
    (processAudio [("A", ⟨"A", "http://u", TaskState.ready, none⟩)]
        ["/tmp/A/audio.m4a"] ⟨"A", 5, 2, 0, 3, false⟩ "o"
        (FfmpegBehavior.completes true "" true)).invoked
      = some ⟨"/tmp/A/audio.m4a", buildFilters ⟨"A", 5, 2, 0, 3, false⟩,
          "/tmp/A/o.ogg"⟩
    ∧ (buildFilters ⟨"A", 5, 2, 0, 3, false⟩).head?
      = some (AFilter.trimReset 5 2)
    ∧ AFilter.afadeOut 0 3 ∉ buildFilters ⟨"A", 5, 2, 0, 3, false⟩ := by
  have h := c10_no_trim_validation [("A", ⟨"A", "http://u", TaskState.ready, none⟩)]
    ["/tmp/A/audio.m4a"] ⟨"A", 5, 2, 0, 3, false⟩ "o"
    (FfmpegBehavior.completes true "" true)
    ⟨"A", "http://u", TaskState.ready, none⟩ rfl rfl (by decide)
  exact ⟨by simpa using h.1, h.2.1, h.2.2 (by norm_num) 0 3⟩

/-- C1 (failing-input evaluation): task `A` has already reached the
terminal state `ready` when, in the next worker iteration, the dequeue
itself raises an exception. The `except` handler still sees the stale
local `task_id = "A"` and sets `A`'s state back to `error` (with
`error_message` the new exception's text), while the loop continues: the
monotonicity invariant `ready -> error` is violated by the worker's
exception handler. -/
theorem c1_terminal_state_overwritten :
    (Tasks.find [("A", ⟨"A", "http://u", TaskState.ready, none⟩)] "A").map Task.state
      = some TaskState.ready
    ∧ Tasks.find (workerIteration
        ⟨[("A", ⟨"A", "http://u", TaskState.ready, none⟩)],
          ["B"], ["/tmp/A", "/tmp/A/audio.m4a"], 1, some "A"⟩
        (WorkerEvent.dequeueRaises "boom")).1.tasks "A"
      = some ⟨"A", "http://u", TaskState.error, some "boom"⟩
    ∧ (workerIteration
        ⟨[("A", ⟨"A", "http://u", TaskState.ready, none⟩)],
          ["B"], ["/tmp/A", "/tmp/A/audio.m4a"], 1, some "A"⟩
        (WorkerEvent.dequeueRaises "boom")).2 = IterOutcome.continues := by
  decide

/-- C3 (failing-input evaluation): on the very first worker iteration the
dequeue raises before `task_id` is ever assigned (`prev = none`). The
handler's `if task_id` test then raises `UnboundLocalError`, which nothing
catches: the worker coroutine terminates instead of resuming dequeuing. -/
theorem c3_worker_loop_terminates :
    (workerIteration ⟨[], [], [], 0, none⟩
      (WorkerEvent.dequeueRaises "boom")).2 = IterOutcome.terminated := by
  decide

/-- C2 counterexample: a worker run whose download subprocess exits 0 but
produces no output artifact ends in `ready` with the artifact absent from
disk — not in `error` as the claim requires for a missing expected
output. -/
theorem c2_counterexample :
    (Tasks.find (workerIteration
        ⟨[("A", ⟨"A", "http://u", TaskState.queued, none⟩)], ["A"], [], 1, none⟩
        (WorkerEvent.subprocDone 0 "" false)).1.tasks "A").map Task.state
      = some TaskState.ready
    ∧ "/tmp/A/audio.m4a" ∉ (workerIteration
        ⟨[("A", ⟨"A", "http://u", TaskState.queued, none⟩)], ["A"], [], 1, none⟩
        (WorkerEvent.subprocDone 0 "" false)).1.fs := by
  decide

/-- C2 (amended): the worker decides the terminal state solely from the
exit code and exceptions — exit 0 always yields `ready` with
`error_message` unchanged (never checking the output artifact); a non-zero
exit yields `error` with a non-empty `error_message` (the stderr text, or
`"Download failed"` when stderr is empty); an orchestration exception
yields `error` with `error_message` the exception text. -/
theorem c2_terminal_state_from_exit_code (s : WorkerState) (id : String)
    (rest : List String) (t : Task) (hq : s.queue = id :: rest)
    (hf : Tasks.find s.tasks id = some t) (hid : id ≠ "") :
    (∀ stderr art,
        Tasks.find (workerIteration s (WorkerEvent.subprocDone 0 stderr art)).1.tasks id
          = some { t with state := TaskState.ready })
    ∧ (∀ rc stderr art, rc ≠ 0 →
        ∃ m, Tasks.find
            (workerIteration s (WorkerEvent.subprocDone rc stderr art)).1.tasks id
            = some { t with state := TaskState.error, error_message := some m }
          ∧ m ≠ "")
    ∧ (∀ e,
        Tasks.find (workerIteration s (WorkerEvent.orchRaises e)).1.tasks id
          = some { t with state := TaskState.error, error_message := some e }) := by
  obtain ⟨tks, q, fsS, unf, prev⟩ := s
  have hq' : q = id :: rest := hq
  have hf' : Tasks.find tks id = some t := hf
  subst hq'
  refine ⟨?_, ?_, ?_⟩
  · intro stderr art
    have h := worker_subproc_find tks rest fsS unf prev id t hf' 0 stderr art
    simpa using h
  · intro rc stderr art hrc
    refine ⟨if stderr = "" then "Download failed" else stderr, ?_, ?_⟩
    · have h := worker_subproc_find tks rest fsS unf prev id t hf' rc stderr art
      simpa [hrc] using h
    · split_ifs with hs
      · decide
      · exact hs
  · intro e
    exact worker_orch_find tks rest fsS unf prev id t hf' hid e

/-- Witness for the amended C2 at a queued task `A`: exit 0 yields `ready`
with `error_message` still null; exit 1 with stderr `"boom"` yields
`error` with that non-empty message; an orchestration exception yields
`error` with the exception text. -/
theorem c2_terminal_state_from_exit_code_witness :
    Tasks.find (workerIteration
        ⟨[("A", ⟨"A", "http://u", TaskState.queued, none⟩)], ["A"], [], 1, none⟩
        (WorkerEvent.subprocDone 0 "" true)).1.tasks "A"
      = some ⟨"A", "http://u", TaskState.ready, none⟩
    ∧ (∃ m, Tasks.find (workerIteration
        ⟨[("A", ⟨"A", "http://u", TaskState.queued, none⟩)], ["A"], [], 1, none⟩
        (WorkerEvent.subprocDone 1 "boom" true)).1.tasks "A"
      = some ⟨"A", "http://u", TaskState.error, some m⟩ ∧ m ≠ "")
    ∧ Tasks.find (workerIteration
        ⟨[("A", ⟨"A", "http://u", TaskState.queued, none⟩)], ["A"], [], 1, none⟩
        (WorkerEvent.orchRaises "mkdir failed")).1.tasks "A"
      = some ⟨"A", "http://u", TaskState.error, some "mkdir failed"⟩ := by
  have h := c2_terminal_state_from_exit_code
    ⟨[("A", ⟨"A", "http://u", TaskState.queued, none⟩)], ["A"], [], 1, none⟩
    "A" [] ⟨"A", "http://u", TaskState.queued, none⟩ rfl rfl (by decide)
  exact ⟨h.1 "" true, h.2.1 1 "boom" true (by decide), h.2.2 "mkdir failed"⟩

/-- C7: one sweep pass deletes every matching task directory strictly older
than the 1-hour threshold together with its registry entry; leaves every
younger directory and (in the age-based pass) its registry entry
untouched; and separately removes every terminal registry entry whose
directory no longer exists after the deletions. -/
theorem c7_cleanup_sweep (now : ℚ) (fs : List DirEntry) (tasks : Tasks)
    (hnd : (fs.map DirEntry.name).Nodup) :
    (∀ d ∈ fs, agedTaskDir now d = true →
        d ∉ (cleanupOldFiles now fs tasks).1
        ∧ ∀ t : Task, (d.name, t) ∉ (cleanupOldFiles now fs tasks).2)
    ∧ (∀ d ∈ fs, ¬(now - d.mtime > 3600) →
        d ∈ (cleanupOldFiles now fs tasks).1
        ∧ ∀ t : Task, (d.name, t) ∈ tasks → (d.name, t) ∈ sweepTasksAged now fs tasks)
    ∧ (∀ id t, (id, t) ∈ tasks → isTerminal t.state = true →
        dirOnDisk (sweepDirs now fs) id = false →
        (id, t) ∉ (cleanupOldFiles now fs tasks).2) := by
  have hfst : (cleanupOldFiles now fs tasks).1 = sweepDirs now fs := rfl
  have hsnd : (cleanupOldFiles now fs tasks).2
      = reconcileTasks (sweepDirs now fs) (sweepTasksAged now fs tasks) := rfl
  refine ⟨?_, ?_, ?_⟩
  · intro d hd haged
    constructor
    · rw [hfst]
      intro hmem
      have := (mem_sweepDirs.mp hmem).2
      simp [haged] at this
    · intro t hmem
      rw [hsnd] at hmem
      have h1 := (mem_reconcileTasks.mp hmem).1
      have h2 := (mem_sweepTasksAged.mp h1).2
      exact h2 (mem_agedIds.mpr ⟨d, ⟨hd, haged⟩, rfl⟩)
  · intro d hd hyoung
    have haged : agedTaskDir now d = false := by
      simp [agedTaskDir, hyoung]
    constructor
    · rw [hfst]
      exact mem_sweepDirs.mpr ⟨hd, haged⟩
    · intro t ht
      refine mem_sweepTasksAged.mpr ⟨ht, ?_⟩
      intro hidmem
      rcases mem_agedIds.mp hidmem with ⟨d', ⟨hd', haged'⟩, hname⟩
      have hdd : d' = d := List.inj_on_of_nodup_map hnd hd' hd hname
      rw [hdd, haged] at haged'
      cases haged'
  · intro id t hmem hterm hdisk
    rw [hsnd]
    intro hin
    rcases (mem_reconcileTasks.mp hin).2 with hterm' | hdisk'
    · rw [hterm] at hterm'
      cases hterm'
    · rw [hdisk] at hdisk'
      cases hdisk'

/-- Characterisation of `agedTaskDir` as a proposition. -/
theorem agedTaskDir_eq_true {now : ℚ} {d : DirEntry} :
    agedTaskDir now d = true
      ↔ d.isDir = true ∧ looksLikeTaskId d.name = true ∧ now - d.mtime > 3600 := by
  simp [agedTaskDir, and_assoc]

/-- Witness scenario for C7: an aged task directory (mtime 0, swept at time
7200), a young one (mtime 7000), registry entries for both plus a terminal
entry `gone` whose directory does not exist. -/
def cwAged : DirEntry := ⟨"aaaaaaaa-aaaa-aaaa-aaaa-aaaaaaaaaaaa", true, 0⟩

def cwYoung : DirEntry := ⟨"bbbbbbbb-bbbb-bbbb-bbbb-bbbbbbbbbbbb", true, 7000⟩

def cwTaskA : Task := ⟨"aaaaaaaa-aaaa-aaaa-aaaa-aaaaaaaaaaaa", "http://u", TaskState.ready, none⟩

def cwTaskB : Task := ⟨"bbbbbbbb-bbbb-bbbb-bbbb-bbbbbbbbbbbb", "http://v", TaskState.ready, none⟩

def cwTaskC : Task := ⟨"gone", "http://w", TaskState.error, some "x"⟩

def cwTasks : Tasks :=
  [("aaaaaaaa-aaaa-aaaa-aaaa-aaaaaaaaaaaa", cwTaskA),
   ("bbbbbbbb-bbbb-bbbb-bbbb-bbbbbbbbbbbb", cwTaskB),
   ("gone", cwTaskC)]

/-- Witness for C7 at the concrete scenario: the aged directory and its
entry are removed, the young directory and its entry survive the age-based
pass, and the directory-less terminal entry `gone` is reconciled away. -/
theorem c7_cleanup_sweep_witness :
    cwAged ∉ (cleanupOldFiles 7200 [cwAged, cwYoung] cwTasks).1
    ∧ ("aaaaaaaa-aaaa-aaaa-aaaa-aaaaaaaaaaaa", cwTaskA)
        ∉ (cleanupOldFiles 7200 [cwAged, cwYoung] cwTasks).2
    ∧ cwYoung ∈ (cleanupOldFiles 7200 [cwAged, cwYoung] cwTasks).1
    ∧ ("bbbbbbbb-bbbb-bbbb-bbbb-bbbbbbbbbbbb", cwTaskB)
        ∈ sweepTasksAged 7200 [cwAged, cwYoung] cwTasks
    ∧ ("gone", cwTaskC) ∉ (cleanupOldFiles 7200 [cwAged, cwYoung] cwTasks).2 := by
  have hA : agedTaskDir 7200 cwAged = true :=
    agedTaskDir_eq_true.mpr ⟨rfl, by decide, by norm_num [cwAged]⟩
  have hB : agedTaskDir 7200 cwYoung = false := by
    rw [Bool.eq_false_iff, Ne, agedTaskDir_eq_true]
    rintro ⟨-, -, hgt⟩
    norm_num [cwYoung] at hgt
  have hdisk : dirOnDisk (sweepDirs 7200 [cwAged, cwYoung]) "gone" = false := by
    have hsw : sweepDirs 7200 [cwAged, cwYoung] = [cwYoung] := by
      simp [sweepDirs, List.filter_cons, hA, hB]
    rw [hsw]
    decide
  have h := c7_cleanup_sweep 7200 [cwAged, cwYoung] cwTasks (by decide)
  refine ⟨(h.1 cwAged (by simp) hA).1, ?_, (h.2.1 cwYoung (by simp)
    (by norm_num [cwYoung])).1, (h.2.1 cwYoung (by simp)
    (by norm_num [cwYoung])).2 cwTaskB (by simp [cwTasks, cwYoung]), h.2.2 "gone" cwTaskC
    (by simp [cwTasks]) (by decide) hdisk⟩
  have h2 := (h.1 cwAged (by simp) hA).2 cwTaskA
  simpa [cwAged] using h2

/-- C8 counterexample: no route of the app has path `/cleanup` or
`/stats` — the claimed operational endpoints do not exist. -/
theorem c8_counterexample :
    apiRoutes.filter (fun r => r.path == "/cleanup" || r.path == "/stats") = [] := by
  decide

/-- C8 (amended): the HTTP surface exposes no `/cleanup` and no `/stats`
endpoint — every route of the app has some other path. -/
theorem c8_no_operational_endpoints :
    ∀ r ∈ apiRoutes, r.path ≠ "/cleanup" ∧ r.path ≠ "/stats" := by
  decide

/-- Witness for the amended C8 at the first route of the table. -/
theorem c8_no_operational_endpoints_witness :
    (⟨Method.post, "/api/download"⟩ : Route) ∈ apiRoutes
    ∧ ("/api/download" ≠ "/cleanup" ∧ "/api/download" ≠ "/stats") :=
  ⟨by decide, c8_no_operational_endpoints ⟨Method.post, "/api/download"⟩ (by decide)⟩

end HoloSounds
